import Mathlib

/-!
Verification development for the retry/fallback policy layer of the
rhino-scripts repository (src/export.py and src/assemble_layouts.py).

The host application (scene graph, command interpreter, file system) is
opaque; every host side effect that the scripts branch on is modelled as an
explicit environment value, and each Python function is translated into a
Lean function over those environments.  Python floats appear only as exact
millimetre values and poll/timeout intervals, so they are modelled as `Nat`
or `Rat`; machine behaviour is otherwise irrelevant to the claims.
-/

/-! ## StabilizationWaiter: `_wait_for_file` (src/export.py lines 316-347)

One poll of the output file can observe that the file is absent, that it is
present with a given size, or the check itself can raise (the `except`
branch).  Time is modelled as advancing by `poll` seconds at each
`time.sleep(poll_seconds)`, so the elapsed time before the k-th poll is
`k * poll`; `fuel` bounds the number of loop iterations so the function is
total, and `none` means the fuel ran out before the loop returned. -/

inductive FileObs where
  | absent : FileObs
  | present : Int → FileObs
  | err : FileObs
deriving DecidableEq, Repr

/-- One iteration of the body of the `while` loop in `_wait_for_file`:
given the observation of the file and the current `last_size` and
`stable_count`, produce the new `last_size`, the new `stable_count`, and
whether the loop returns `True` at this iteration.  An `err` observation is
the `except` branch: it changes nothing and the loop keeps polling. -/
def stepProbe (o : FileObs) (last : Int) (cnt : Nat) : Int × Nat × Bool :=
  match o with
  | .absent => (last, cnt, false)
  | .err => (last, cnt, false)
  | .present size =>
    if 0 < size then
      if size = last then (last, cnt + 1, decide (2 ≤ cnt + 1))
      else (size, 0, false)
    else (last, cnt, false)

/-- The polling loop of `_wait_for_file`.  `k` is the number of polls already
performed, `last` is `last_size` (initially -1) and `cnt` is `stable_count`
(initially 0).  Returns `some (true, polls)` when the file is considered
stable after `polls` polls, `some (false, polls)` on timeout, and `none`
when `fuel` iterations were not enough to reach either exit. -/
def waitAux (trace : Nat → FileObs) (timeout poll : ℚ) :
    (fuel k : Nat) → (last : Int) → (cnt : Nat) → Option (Bool × Nat)
  | 0, k, _, _ =>
    if (k : ℚ) * poll < timeout then none else some (false, k)
  | f + 1, k, last, cnt =>
    if (k : ℚ) * poll < timeout then
      if (stepProbe (trace k) last cnt).2.2 then some (true, k + 1)
      else waitAux trace timeout poll f (k + 1) (stepProbe (trace k) last cnt).1
        (stepProbe (trace k) last cnt).2.1
    else some (false, k)

/-- `_wait_for_file`, started with `last_size = -1` and `stable_count = 0`. -/
def waitForFile (trace : Nat → FileObs) (timeout poll : ℚ) (fuel : Nat) :
    Option (Bool × Nat) :=
  waitAux trace timeout poll fuel 0 (-1) 0

/-- A probe that observes the positive size 5 twice and then finds the file
gone: two consecutive identical positive readings, never a third. -/
def traceTwoThenGone : Nat → FileObs := fun k =>
  if k < 2 then .present 5 else .absent

/-- A probe that observes the positive size 5 at every poll. -/
def traceAlwaysFive : Nat → FileObs := fun _ => .present 5

/-- C1: the claim says the waiter confirms immediately after the 2nd
identical positive reading, without a 3rd poll.  The code instead requires
`stable_count >= 2`, i.e. two equality events and hence three identical
positive readings.  At a probe observing `[5, 5]` and then nothing
(timeout 3, poll interval 1) the waiter times out with `False` even though
two consecutive identical positive readings occurred, and at a probe always
observing 5 it confirms only after the 3rd poll. -/
theorem c1_two_readings_do_not_confirm :
    waitForFile traceTwoThenGone 3 1 10 = some (false, 3) ∧
    waitForFile traceAlwaysFive 10 1 20 = some (true, 3) := by
  constructor <;>
    norm_num [waitForFile, waitAux, stepProbe, traceTwoThenGone, traceAlwaysFive]

/-- Helper: when `waitAux` exits with `false` after `n` polls, the elapsed
time `n * poll` has reached `timeout`, and at every earlier poll the elapsed
time was still below `timeout` (the loop re-checked the clock before each
poll). -/
theorem waitAux_false_sound (trace : Nat → FileObs) (timeout poll : ℚ) :
    ∀ (fuel k : Nat) (last : Int) (cnt n : Nat),
      waitAux trace timeout poll fuel k last cnt = some (false, n) →
      timeout ≤ (n : ℚ) * poll ∧ ∀ m, k ≤ m → m < n → (m : ℚ) * poll < timeout := by
  intro fuel
  induction fuel with
  | zero =>
    intro k last cnt n h
    by_cases hk : (k : ℚ) * poll < timeout
    · simp [waitAux, hk] at h
    · simp [waitAux, hk] at h
      refine ⟨h ▸ le_of_not_lt hk, fun m hkm hmn => absurd (lt_of_le_of_lt hkm hmn) ?_⟩
      simp [h]
  | succ f ih =>
    intro k last cnt n h
    by_cases hk : (k : ℚ) * poll < timeout
    · by_cases hs : (stepProbe (trace k) last cnt).2.2
      · simp [waitAux, hk, hs] at h
      · simp only [waitAux, if_pos hk, if_neg hs] at h
        obtain ⟨h1, h2⟩ := ih (k + 1) _ _ n h
        refine ⟨h1, fun m hkm hmn => ?_⟩
        rcases eq_or_lt_of_le hkm with heq | hlt
        · exact heq ▸ hk
        · exact h2 m hlt hmn
    · simp [waitAux, hk] at h
      refine ⟨h ▸ le_of_not_lt hk, fun m hkm hmn => absurd (lt_of_le_of_lt hkm hmn) ?_⟩
      simp [h]

/-- Helper: with enough fuel to reach the timeout, `waitAux` always reaches
one of its two returns (it never runs out of fuel). -/
theorem waitAux_isSome (trace : Nat → FileObs) (timeout poll : ℚ) :
    ∀ (fuel k : Nat) (last : Int) (cnt : Nat),
      timeout ≤ ((k : ℚ) + (fuel : ℚ)) * poll →
      (waitAux trace timeout poll fuel k last cnt).isSome := by
  intro fuel
  induction fuel with
  | zero =>
    intro k last cnt hle
    have hk : ¬ ((k : ℚ) * poll < timeout) := by
      push_cast at hle
      simpa using not_lt.mpr hle
    simp [waitAux, hk]
  | succ f ih =>
    intro k last cnt hle
    by_cases hk : (k : ℚ) * poll < timeout
    · by_cases hs : (stepProbe (trace k) last cnt).2.2
      · simp [waitAux, hk, hs]
      · simp only [waitAux, if_pos hk, if_neg hs]
        apply ih
        have : ((k : ℚ) + ((f : ℚ) + 1)) = (((k + 1 : Nat) : ℚ) + (f : ℚ)) := by
          push_cast
          ring
        calc timeout ≤ ((k : ℚ) + ((f + 1 : Nat) : ℚ)) * poll := hle
          _ = (((k + 1 : Nat) : ℚ) + (f : ℚ)) * poll := by push_cast; ring
    · simp [waitAux, hk]

/-- C7: for a probe that never stabilizes (for the given fuel, the waiter
never reports `true`; probe-check errors are among the allowed
observations), the waiter terminates with the negative result `false`, and
it does so exactly when the elapsed time `n * poll` first reaches `timeout`:
never before (`m * poll < timeout` for every earlier poll `m`).  The result
is a returned value, not an error: the model of `_wait_for_file` is total
into `Bool`. -/
theorem c7_timeout_unconfirmed (trace : Nat → FileObs) (timeout poll : ℚ) (fuel : Nat)
    (hfuel : timeout ≤ (fuel : ℚ) * poll)
    (hnotrue : ∀ n, waitForFile trace timeout poll fuel ≠ some (true, n)) :
    ∃ n, waitForFile trace timeout poll fuel = some (false, n) ∧
      timeout ≤ (n : ℚ) * poll ∧ ∀ m, m < n → (m : ℚ) * poll < timeout := by
  have hsome : (waitForFile trace timeout poll fuel).isSome := by
    apply waitAux_isSome trace timeout poll fuel 0 (-1) 0
    simpa using hfuel
  obtain ⟨⟨b, n⟩, hb⟩ := Option.isSome_iff_exists.mp hsome
  cases b with
  | false =>
    obtain ⟨h1, h2⟩ := waitAux_false_sound trace timeout poll fuel 0 (-1) 0 n hb
    exact ⟨n, hb, h1, fun m hm => h2 m (Nat.zero_le m) hm⟩
  | true => exact absurd hb (hnotrue n)

/-- A probe whose check raises at every poll: the file status can never be
read, so the value never stabilizes. -/
def traceErr : Nat → FileObs := fun _ => .err

/-- Witness for C7 at a concrete input: an always-erroring probe, timeout 2,
poll interval 1 and fuel 2. -/
theorem c7_timeout_unconfirmed_witness :
    ∃ n, waitForFile traceErr 2 1 2 = some (false, n) ∧
      (2 : ℚ) ≤ (n : ℚ) * 1 ∧ ∀ m, m < n → (m : ℚ) * 1 < 2 :=
  c7_timeout_unconfirmed traceErr 2 1 2 (by norm_num)
    (by
      intro n h
      have hev : waitForFile traceErr 2 1 2 = some (false, 2) := by
        norm_num [waitForFile, waitAux, stepProbe, traceErr]
      rw [hev] at h
      simp at h)

/-! ## String helpers

Lean core string functions (`String.startsWith`, `String.toUpper`, ...) are
implemented with byte-position recursion that the kernel cannot evaluate, so
the Python string operations used by the scripts are embedded directly over
the character list of the string, with the same semantics. -/

/-- Python `s.startswith(p)`. -/
def strStartsWith (s p : String) : Bool := p.data.isPrefixOf s.data

/-- Python `s.upper()`. -/
def strToUpper (s : String) : String := ⟨s.data.map Char.toUpper⟩

/-- Python `s.strip()`: drop leading and trailing whitespace. -/
def strTrim (s : String) : String :=
  ⟨((s.data.dropWhile Char.isWhitespace).reverse.dropWhile Char.isWhitespace).reverse⟩

/-- The number of non-overlapping occurrences of `::` in a character list,
scanning from the left: Python `len(s.split("::")) - 1`. -/
def countSep : List Char → Nat
  | ':' :: ':' :: rest => countSep rest + 1
  | _ :: rest => countSep rest
  | [] => 0

/-! ## StrategyChain / IdempotencyGuard: the DWG export pipeline
(src/export.py)

Host side effects are abstracted into environment records; the filesystem
state that the scripts probe (`os.path.exists(outpath)` together with
`os.path.getsize(outpath) > 0`) is a single `Bool` threaded through the
functions. -/

/-- Host behaviour visible to one `export_sublayers_dwg` call:
whether the drawing layer tree holds objects, whether the RhinoCommon
`WriteFile` attempt raises, whether the file stabilizes after it, and
whether the file stabilizes after the i-th fallback `-_Export` command. -/
structure ExportEnv where
  hasObjects : Bool
  writeFileRaises : Bool
  writeFileStable : Bool
  cmdStable : Nat → Bool

/-- Terminal outcome of `export_sublayers_dwg`: a raised exception, an early
return preserving the existing file, or a successful write via the
RhinoCommon strategy or via the i-th command strategy. -/
inductive ExportResult where
  | raisedErr : String → ExportResult
  | skippedExisting : ExportResult
  | wroteRhinoCommon : ExportResult
  | wroteCmd : Nat → ExportResult
deriving DecidableEq, Repr

/-- Observable trace of one `export_sublayers_dwg` call: the outcome,
whether the RhinoCommon `WriteFile` strategy was attempted, which fallback
export commands were issued (in order), and the file state afterwards. -/
structure ExportTrace where
  result : ExportResult
  writeFileAttempted : Bool
  cmdsInvoked : List Nat
  fsAfter : Bool
deriving DecidableEq, Repr

/-- The `for cmd in export_cmds:` loop (src/export.py lines 543-550), also
the shape of the `for seq in try_sequences:` loop of
`_export_pdf_per_layout` (src/assemble_layouts.py lines 1029-1043): issue
each command in list order; stop at the first after which the output file
stabilizes.  Returns the index of the first successful command (if any) and
the list of commands actually issued, in order. -/
def tryCmds (stable : Nat → Bool) : List Nat → Option Nat × List Nat
  | [] => (none, [])
  | i :: rest =>
    if stable i then (some i, [i])
    else
      let r := tryCmds stable rest
      (r.1, i :: r.2)

/-- The four `-_Export` command variants of `export_sublayers_dwg`. -/
def export_cmds_idx : List Nat := [0, 1, 2, 3]

/-- The four print command sequences of `_export_pdf_per_layout`. -/
def try_sequences_idx : List Nat := [0, 1, 2, 3]

/-- `export_sublayers_dwg` (src/export.py lines 459-560) over the host
environment `env` and the entry file state `fs` (does the output file exist
with nonzero size).  Layer unlocking/locking and object selection are host
calls with no bearing on the claims and are omitted.  `raisedErr` models a
raised `Exception`. -/
def export_sublayers_dwg (drawingLayerName : String) (allow_overwrite : Bool)
    (env : ExportEnv) (fs : Bool) : ExportTrace :=
  if !(strStartsWith drawingLayerName "DRAWING_") then
    { result := .raisedErr ("Unexpected drawing layer name: " ++ drawingLayerName),
      writeFileAttempted := false, cmdsInvoked := [], fsAfter := fs }
  else if !allow_overwrite && fs then
    { result := .skippedExisting, writeFileAttempted := false, cmdsInvoked := [],
      fsAfter := fs }
  else if !env.hasObjects then
    { result := .raisedErr ("No objects on layer tree: " ++ drawingLayerName),
      writeFileAttempted := false, cmdsInvoked := [], fsAfter := fs }
  else if !env.writeFileRaises && env.writeFileStable then
    { result := .wroteRhinoCommon, writeFileAttempted := true, cmdsInvoked := [],
      fsAfter := true }
  else
    match tryCmds env.cmdStable export_cmds_idx with
    | (some i, inv) =>
      { result := .wroteCmd i, writeFileAttempted := true, cmdsInvoked := inv,
        fsAfter := true }
    | (none, inv) =>
      { result := .raisedErr "DWG export failed", writeFileAttempted := true,
        cmdsInvoked := inv,
        fsAfter := if allow_overwrite then false else fs }

/-- The `for cmd in cmds:` loop of `_export_pdf_all_layouts`
(src/assemble_layouts.py lines 955-978): after each of the two command
variants, check whether the PDF exists with nonzero size; return `True` at
the first success, `False` when both variants are exhausted.  The function
is total into `Bool`: exhaustion is a returned value. -/
def pdfAllLoop (fileOk : Nat → Bool) : List Nat → Bool
  | [] => false
  | i :: rest => if fileOk i then true else pdfAllLoop fileOk rest

/-- `_export_pdf_all_layouts`, over the two bulk print command variants. -/
def export_pdf_all_layouts (fileOk : Nat → Bool) : Bool :=
  pdfAllLoop fileOk [0, 1]

/-! ## ResourceLifecycleTracker: `generate_drawing`, `export_deck`,
`cleanup_drawing` and `_delete_layer_tree` (src/export.py) -/

/-- Host behaviour visible to one `generate_drawing` call: whether a
model-space view is available, whether the named clipping plane exists,
which temporary layers the `ClippingDrawings` command creates, and whether
it produces any geometry. -/
structure GenEnv where
  hasModelView : Bool
  clipPlaneFound : Bool
  clippingLayers : List String
  clippingMakesObjects : Bool

/-- Outcome of `generate_drawing`: the returned pair
`(drawing_layer, created_layers)` or a raised exception. -/
inductive GenResult where
  | ok : String → List String → GenResult
  | raisedErr : String → GenResult
deriving DecidableEq, Repr

/-- Observable trace of one `generate_drawing` call: the outcome and all
layers that came into existence during the call, in creation order. -/
structure GenTrace where
  result : GenResult
  layersCreated : List String
deriving DecidableEq, Repr

/-- `generate_drawing` (src/export.py lines 375-456).  The
`ClippingDrawings` command creates its temporary layers before the
no-geometry check, so when the check raises, those layers already exist;
the `DRAWING_<sectionName>` layer is created only after the check. -/
def generate_drawing (sectionName : String) (env : GenEnv) : GenTrace :=
  if !env.hasModelView then
    { result := .raisedErr "No model-space view available", layersCreated := [] }
  else if !env.clipPlaneFound then
    { result := .raisedErr ("Clipping plane not found: " ++ sectionName),
      layersCreated := [] }
  else if !env.clippingMakesObjects then
    { result := .raisedErr ("ClippingDrawings produced no geometry for " ++ sectionName),
      layersCreated := env.clippingLayers }
  else
    { result := .ok ("DRAWING_" ++ sectionName) env.clippingLayers,
      layersCreated := env.clippingLayers ++ ["DRAWING_" ++ sectionName] }

/-- Host behaviour for one `export_deck` call. -/
structure DeckEnv where
  gen : GenEnv
  exp : ExportEnv

/-- Terminal outcome of `export_deck`: the early idempotency skip (returns
the preexisting path), a completed export returning the output path, or a
propagated exception. -/
inductive DeckResult where
  | skippedPreexisting : String → DeckResult
  | exported : String → DeckResult
  | raisedErr : String → DeckResult
deriving DecidableEq, Repr

/-- Observable trace of one `export_deck` call. `layersReleased` lists the
layer trees whose deletion the `finally` block attempts, in order. -/
structure DeckTrace where
  result : DeckResult
  generateInvoked : Bool
  writeFileAttempted : Bool
  cmdsInvoked : List Nat
  layersCreated : List String
  layersReleased : List String
  fsAfter : Bool
deriving DecidableEq, Repr

/-- `_resolve_export_outpath` (src/export.py lines 352-370): the resolved
base directory (output_dir, Desktop or cwd) is abstracted as `baseDir`. -/
def _resolve_export_outpath (sectionName baseDir : String) : String :=
  baseDir ++ "/" ++ sectionName ++ "-Export.dwg"

/-- `export_deck` (src/export.py lines 569-623) over the host environment
and the entry file state `fs`.  The `finally` block deletes the temporary
layers returned by `generate_drawing` and then the drawing layer tree; when
`generate_drawing` raised, the local variables still hold `None`/`[]`, so
nothing is released. -/
def export_deck (sectionName baseDir : String) (allow_overwrite : Bool)
    (env : DeckEnv) (fs : Bool) : DeckTrace :=
  if !allow_overwrite && fs then
    { result := .skippedPreexisting (_resolve_export_outpath sectionName baseDir),
      generateInvoked := false, writeFileAttempted := false, cmdsInvoked := [],
      layersCreated := [], layersReleased := [], fsAfter := fs }
  else
    match (generate_drawing sectionName env.gen).result with
    | .raisedErr msg =>
      { result := .raisedErr msg, generateInvoked := true,
        writeFileAttempted := false, cmdsInvoked := [],
        layersCreated := (generate_drawing sectionName env.gen).layersCreated,
        layersReleased := [], fsAfter := fs }
    | .ok drawingLayer createdTemp =>
      let e := export_sublayers_dwg drawingLayer allow_overwrite env.exp fs
      match e.result with
      | .raisedErr msg =>
        { result := .raisedErr msg, generateInvoked := true,
          writeFileAttempted := e.writeFileAttempted, cmdsInvoked := e.cmdsInvoked,
          layersCreated := (generate_drawing sectionName env.gen).layersCreated,
          layersReleased := createdTemp ++ [drawingLayer], fsAfter := e.fsAfter }
      | _ =>
        { result := .exported (_resolve_export_outpath sectionName baseDir),
          generateInvoked := true,
          writeFileAttempted := e.writeFileAttempted, cmdsInvoked := e.cmdsInvoked,
          layersCreated := (generate_drawing sectionName env.gen).layersCreated,
          layersReleased := createdTemp ++ [drawingLayer], fsAfter := e.fsAfter }

/-! ## Concrete environments used by counterexamples and witnesses -/

/-- A host on which the RhinoCommon write and all four export commands fail
to produce a stable file. -/
def envAllFail : ExportEnv :=
  { hasObjects := true, writeFileRaises := false, writeFileStable := false,
    cmdStable := fun _ => false }

/-- A host on which the RhinoCommon write succeeds. -/
def envWriteOk : ExportEnv :=
  { hasObjects := true, writeFileRaises := false, writeFileStable := true,
    cmdStable := fun _ => false }

/-- A host on which only the second export command (index 1) succeeds. -/
def envSecondCmdOk : ExportEnv :=
  { hasObjects := true, writeFileRaises := false, writeFileStable := false,
    cmdStable := fun i => i == 1 }

/-- A `generate_drawing` host that creates the temporary layer `TMP` and
produces geometry. -/
def genEnvOk : GenEnv :=
  { hasModelView := true, clipPlaneFound := true, clippingLayers := ["TMP"],
    clippingMakesObjects := true }

/-- A `generate_drawing` host on which `ClippingDrawings` creates the
temporary layer `TMP` but produces no geometry, so the call raises after
the layer exists. -/
def genEnvNoGeometry : GenEnv :=
  { hasModelView := true, clipPlaneFound := true, clippingLayers := ["TMP"],
    clippingMakesObjects := false }

/-- A deck host on which generation and export both succeed. -/
def deckEnvOk : DeckEnv := { gen := genEnvOk, exp := envWriteOk }

/-- A deck host on which generation succeeds and every export strategy
fails. -/
def deckEnvExportFails : DeckEnv := { gen := genEnvOk, exp := envAllFail }

/-- A deck host on which `generate_drawing` raises after `ClippingDrawings`
created the temporary layer `TMP`. -/
def deckEnvLeak : DeckEnv := { gen := genEnvNoGeometry, exp := envWriteOk }

/-! ## C2: behaviour on strategy exhaustion -/

/-- C2 counterexample: the claim says a goal whose strategy chain is
exhausted never raises, with every DWG export command tried and the file
never stabilizing as its own example.  On exactly that input
`export_sublayers_dwg` tries all four commands and then raises
`Exception("DWG export failed")` rather than returning a failure
outcome. -/
theorem c2_counterexample :
    (export_sublayers_dwg "DRAWING_DECK" true envAllFail false).result =
      ExportResult.raisedErr "DWG export failed" ∧
    (export_sublayers_dwg "DRAWING_DECK" true envAllFail false).cmdsInvoked =
      [0, 1, 2, 3] := by
  constructor <;> decide

/-- C2 (amended): `_export_pdf_all_layouts` does return a failure outcome
(`False`) when both of its command variants are exhausted, and is total into
`Bool`; but `export_sublayers_dwg` raises an exception when the RhinoCommon
write and all four export commands fail, so exhaustion there is escalated by
the chain itself (the caller `main` catches it per section). -/
theorem c2_exhaustion_outcomes (fileOk : Nat → Bool) (env : ExportEnv)
    (name : String) (allow fs : Bool)
    (hpdf : ∀ i, fileOk i = false)
    (hname : strStartsWith name "DRAWING_" = true)
    (hskip : (!allow && fs) = false)
    (hobj : env.hasObjects = true)
    (hwf : (!env.writeFileRaises && env.writeFileStable) = false)
    (hcmd : ∀ i, env.cmdStable i = false) :
    export_pdf_all_layouts fileOk = false ∧
    (export_sublayers_dwg name allow env fs).result =
      ExportResult.raisedErr "DWG export failed" := by
  constructor
  · simp [export_pdf_all_layouts, pdfAllLoop, hpdf 0, hpdf 1]
  · simp [export_sublayers_dwg, hname, hskip, hobj, hwf, tryCmds,
      export_cmds_idx, hcmd 0, hcmd 1, hcmd 2, hcmd 3]

/-- Witness for C2 (amended) at a concrete input. -/
theorem c2_exhaustion_outcomes_witness :
    export_pdf_all_layouts (fun _ => false) = false ∧
    (export_sublayers_dwg "DRAWING_DECK" true envAllFail false).result =
      ExportResult.raisedErr "DWG export failed" :=
  c2_exhaustion_outcomes (fun _ => false) envAllFail "DRAWING_DECK" true false
    (fun _ => rfl) (by decide) rfl rfl rfl (fun _ => rfl)

/-! ## C3: idempotency guard -/

/-- C3: with `allow_overwrite = False` and the output file already present
with nonzero size, `export_deck` returns the existing path as a skip
outcome without generating a drawing, without attempting the RhinoCommon
write and without issuing any export command; `export_sublayers_dwg`
behaves the same at its own guard; and with `allow_overwrite = True` the
guard never skips: `generate_drawing` is invoked whatever the file state
is. -/
theorem c3_skip_when_confirmed (sectionName baseDir name : String)
    (env : DeckEnv) (env2 : ExportEnv) (fs fs2 : Bool)
    (hfs : fs = true) (hname : strStartsWith name "DRAWING_" = true)
    (hfs2 : fs2 = true) :
    export_deck sectionName baseDir false env fs =
      { result := .skippedPreexisting (_resolve_export_outpath sectionName baseDir),
        generateInvoked := false, writeFileAttempted := false, cmdsInvoked := [],
        layersCreated := [], layersReleased := [], fsAfter := fs } ∧
    (export_deck sectionName baseDir true env fs).generateInvoked = true ∧
    export_sublayers_dwg name false env2 fs2 =
      { result := .skippedExisting, writeFileAttempted := false,
        cmdsInvoked := [], fsAfter := fs2 } := by
  subst hfs
  subst hfs2
  refine ⟨by simp [export_deck], ?_, by simp [export_sublayers_dwg, hname]⟩
  simp only [export_deck]
  cases hres : (generate_drawing sectionName env.gen).result with
  | raisedErr msg => simp [hres]
  | ok dl temp =>
    simp only [hres]
    cases hexp : (export_sublayers_dwg dl true env.exp true).result <;> simp [hexp]

/-- Witness for C3 at a concrete input. -/
theorem c3_skip_when_confirmed_witness :
    export_deck "DECK" "/out" false deckEnvOk true =
      { result := .skippedPreexisting (_resolve_export_outpath "DECK" "/out"),
        generateInvoked := false, writeFileAttempted := false, cmdsInvoked := [],
        layersCreated := [], layersReleased := [], fsAfter := true } ∧
    (export_deck "DECK" "/out" true deckEnvOk true).generateInvoked = true ∧
    export_sublayers_dwg "DRAWING_DECK" false envWriteOk true =
      { result := .skippedExisting, writeFileAttempted := false,
        cmdsInvoked := [], fsAfter := true } :=
  c3_skip_when_confirmed "DECK" "/out" "DRAWING_DECK" deckEnvOk envWriteOk
    true true rfl (by decide) rfl

/-! ## C4 / C5: resource release -/

/-- Helper: when `generate_drawing` returned normally, its trace records
exactly the temporary layers followed by the drawing layer. -/
theorem generate_drawing_ok (sectionName : String) (env : GenEnv)
    (dl : String) (temp : List String)
    (h : (generate_drawing sectionName env).result = GenResult.ok dl temp) :
    (generate_drawing sectionName env).layersCreated = temp ++ [dl] := by
  rcases env with ⟨mv, cp, cl, co⟩
  cases mv <;> cases cp <;> cases co <;> simp_all [generate_drawing]

/-- Helper: whenever `generate_drawing` returns normally, the `finally`
block of `export_deck` attempts the release of exactly the layers that were
created, in creation order, on the success path and on the export-failure
path alike (and the skip path creates and releases nothing). -/
theorem deck_released_eq_created (sectionName baseDir : String) (allow : Bool)
    (env : DeckEnv) (fs : Bool)
    (hgen : ∀ msg,
      (generate_drawing sectionName env.gen).result ≠ GenResult.raisedErr msg) :
    (export_deck sectionName baseDir allow env fs).layersReleased =
      (export_deck sectionName baseDir allow env fs).layersCreated := by
  cases hba : (!allow && fs) with
  | true => simp [export_deck, hba]
  | false =>
    simp only [export_deck, hba, Bool.false_eq_true, if_false]
    cases hres : (generate_drawing sectionName env.gen).result with
    | raisedErr msg => exact absurd hres (hgen msg)
    | ok dl temp =>
      simp only [hres]
      have hlc := generate_drawing_ok sectionName env.gen dl temp hres
      cases hexp : (export_sublayers_dwg dl allow env.exp fs).result <;>
        simp [hexp, hlc]

/-- C4 counterexample: when `ClippingDrawings` creates the temporary layer
`TMP` but produces no geometry, `generate_drawing` raises after the layer
exists; the exception propagates out of `export_deck` and the `finally`
block releases nothing, so the ephemeral layer `TMP` is created but never
released before the outcome reaches the caller. -/
theorem c4_counterexample :
    "TMP" ∈ (export_deck "DECK" "/out" true deckEnvLeak false).layersCreated ∧
    "TMP" ∉ (export_deck "DECK" "/out" true deckEnvLeak false).layersReleased ∧
    (export_deck "DECK" "/out" true deckEnvLeak false).result =
      DeckResult.raisedErr "ClippingDrawings produced no geometry for DECK" := by
  refine ⟨?_, ?_, ?_⟩ <;> decide

/-- C4 (amended): on every exit path on which `generate_drawing` returned
normally (success, export failure, or the idempotency skip), every layer
created during the call is released before `export_deck` returns. -/
theorem c4_release_on_generated_paths (sectionName baseDir : String)
    (allow : Bool) (env : DeckEnv) (fs : Bool)
    (hgen : ∀ msg,
      (generate_drawing sectionName env.gen).result ≠ GenResult.raisedErr msg) :
    (export_deck sectionName baseDir allow env fs).layersReleased =
      (export_deck sectionName baseDir allow env fs).layersCreated :=
  deck_released_eq_created sectionName baseDir allow env fs hgen

/-- Witness for C4 (amended) at a concrete input, on the export-failure
path: generation succeeded, every export strategy failed, and the created
layers are still exactly the released ones. -/
theorem c4_release_on_generated_paths_witness :
    (export_deck "DECK" "/out" true deckEnvExportFails false).layersReleased =
      (export_deck "DECK" "/out" true deckEnvExportFails false).layersCreated :=
  c4_release_on_generated_paths "DECK" "/out" true deckEnvExportFails false
    (by
      intro msg h
      rw [show (generate_drawing "DECK" deckEnvExportFails.gen).result =
        GenResult.ok "DRAWING_DECK" ["TMP"] from rfl] at h
      exact GenResult.noConfusion h)

/-- C5 counterexample: on a successful deck export the resources are created
in the order `[TMP, DRAWING_DECK]` (the temporary layers during
`ClippingDrawings`, then the drawing layer) and released in that same
order, temporary layers first — not in reverse creation order. -/
theorem c5_counterexample :
    (export_deck "DECK" "/out" true deckEnvOk false).layersCreated =
      ["TMP", "DRAWING_DECK"] ∧
    (export_deck "DECK" "/out" true deckEnvOk false).layersReleased =
      ["TMP", "DRAWING_DECK"] ∧
    (export_deck "DECK" "/out" true deckEnvOk false).layersReleased ≠
      (export_deck "DECK" "/out" true deckEnvOk false).layersCreated.reverse := by
  refine ⟨?_, ?_, ?_⟩ <;> decide

/-- Python `len(ln.split("::"))`: nesting depth of a layer path. -/
def layerDepth (s : String) : Nat := countSep s.data + 1

/-- The membership test of the loop in `_delete_layer_tree`:
`ln == layer_name or ln.startswith(layer_name + "::")`. -/
def inLayerTree (layer_name ln : String) : Bool :=
  ln == layer_name || strStartsWith ln (layer_name ++ "::")

/-- The sort order of `_delete_layer_tree`:
`sorted(key=lambda s: len(s.split("::")), reverse=True)` — deeper layer
paths first. -/
def depthGE (a b : String) : Prop := layerDepth b ≤ layerDepth a

instance : DecidableRel depthGE := fun a b =>
  inferInstanceAs (Decidable (layerDepth b ≤ layerDepth a))

instance : IsTotal String depthGE :=
  ⟨fun a b => Nat.le_total (layerDepth b) (layerDepth a)⟩

instance : IsTrans String depthGE :=
  ⟨fun _ _ _ hab hbc => le_trans hbc hab⟩

/-- Python stable sort by descending depth (ties keep list order, which the
theorems below do not rely on). -/
def sortLayersByDepthDesc (l : List String) : List String :=
  List.insertionSort depthGE l

/-- The deletion loop of `_delete_layer_tree` (src/export.py lines
289-311): walk the depth-sorted layer list; for each layer in the target
tree, attempt to delete its objects and the layer itself.  Each attempt is
wrapped in its own `try/except`, so a failing delete (`fail ln = true`) is
logged and counted but never stops the loop.  Returns the layers attempted,
in order, and the number of failures. -/
def deleteLoop (fail : String → Bool) (layer_name : String) :
    List String → List String × Nat
  | [] => ([], 0)
  | ln :: rest =>
    if inLayerTree layer_name ln then
      (ln :: (deleteLoop fail layer_name rest).1,
        (if fail ln then 1 else 0) + (deleteLoop fail layer_name rest).2)
    else deleteLoop fail layer_name rest

/-- `_delete_layer_tree` over the document layer list and a per-layer
delete outcome. -/
def _delete_layer_tree (fail : String → Bool) (allLayers : List String)
    (layer_name : String) : List String × Nat :=
  deleteLoop fail layer_name (sortLayersByDepthDesc allLayers)

/-- Helper: the layers attempted by the deletion loop are exactly the tree
members of the input list, in input order, independent of which deletes
fail. -/
theorem deleteLoop_fst (fail : String → Bool) (name : String) :
    ∀ l : List String, (deleteLoop fail name l).1 = l.filter (inLayerTree name)
  | [] => rfl
  | ln :: rest => by
    cases h : inLayerTree name ln <;>
      simp [deleteLoop, h, List.filter_cons, deleteLoop_fst fail name rest]

/-- C5 (amended): `_delete_layer_tree` attempts the deletion of every layer
of the target tree regardless of which individual deletes fail (the
attempted list is the filtered sorted list, the same for any two failure
patterns), and those attempts run deepest-first (children before parents);
at the goal level, however, `export_deck` releases in forward creation
order — the temporary layers first, the drawing layer last — whenever
`generate_drawing` returned normally. -/
theorem c5_tolerant_depth_ordered_release (fail fail2 : String → Bool)
    (allLayers : List String) (name sectionName baseDir : String)
    (allow : Bool) (env : DeckEnv) (fs : Bool)
    (hgen : ∀ msg,
      (generate_drawing sectionName env.gen).result ≠ GenResult.raisedErr msg) :
    (_delete_layer_tree fail allLayers name).1 =
      (sortLayersByDepthDesc allLayers).filter (inLayerTree name) ∧
    (_delete_layer_tree fail allLayers name).1 =
      (_delete_layer_tree fail2 allLayers name).1 ∧
    List.Pairwise depthGE (_delete_layer_tree fail allLayers name).1 ∧
    (export_deck sectionName baseDir allow env fs).layersReleased =
      (export_deck sectionName baseDir allow env fs).layersCreated := by
  have h1 := deleteLoop_fst fail name (sortLayersByDepthDesc allLayers)
  have h2 := deleteLoop_fst fail2 name (sortLayersByDepthDesc allLayers)
  refine ⟨h1, h1.trans h2.symm, ?_,
    deck_released_eq_created sectionName baseDir allow env fs hgen⟩
  rw [_delete_layer_tree, h1]
  exact List.Pairwise.sublist (List.filter_sublist _)
    (List.sorted_insertionSort depthGE allLayers)

/-- Witness for C5 (amended) at concrete inputs: a four-layer document, a
failure pattern that fails on `A::B`, and the concrete deck host. -/
theorem c5_tolerant_depth_ordered_release_witness :
    (_delete_layer_tree (fun ln => ln == "A::B") ["A", "A::B", "A::B::C", "X"] "A").1 =
      (sortLayersByDepthDesc ["A", "A::B", "A::B::C", "X"]).filter (inLayerTree "A") ∧
    (_delete_layer_tree (fun ln => ln == "A::B") ["A", "A::B", "A::B::C", "X"] "A").1 =
      (_delete_layer_tree (fun _ => false) ["A", "A::B", "A::B::C", "X"] "A").1 ∧
    List.Pairwise depthGE
      (_delete_layer_tree (fun ln => ln == "A::B") ["A", "A::B", "A::B::C", "X"] "A").1 ∧
    (export_deck "DECK" "/out" true deckEnvOk false).layersReleased =
      (export_deck "DECK" "/out" true deckEnvOk false).layersCreated :=
  c5_tolerant_depth_ordered_release (fun ln => ln == "A::B") (fun _ => false)
    ["A", "A::B", "A::B::C", "X"] "A" "DECK" "/out" true deckEnvOk false
    (by
      intro msg h
      rw [show (generate_drawing "DECK" deckEnvOk.gen).result =
        GenResult.ok "DRAWING_DECK" ["TMP"] from rfl] at h
      exact GenResult.noConfusion h)

/-! ## C6: chain order and short-circuit -/

/-- Helper: when the first `n` commands fail and the n-th succeeds
(`n < 4`), the command loop returns the n-th command and issues exactly the
commands `0 .. n`, in order. -/
theorem tryCmds_first_success (stable : Nat → Bool) (n : Nat) (hn : n < 4)
    (hbefore : ∀ m, m < n → stable m = false) (hsucc : stable n = true) :
    tryCmds stable [0, 1, 2, 3] = (some n, List.range (n + 1)) := by
  rcases n with _ | _ | _ | _ | n
  · simp [tryCmds, hsucc, List.range_succ]
  · simp [tryCmds, hsucc, hbefore 0 (by norm_num), List.range_succ]
  · simp [tryCmds, hsucc, hbefore 0 (by norm_num), hbefore 1 (by norm_num),
      List.range_succ]
  · simp [tryCmds, hsucc, hbefore 0 (by norm_num), hbefore 1 (by norm_num),
      hbefore 2 (by norm_num), List.range_succ]
  · exact absurd hn (by omega)

/-- C6: the strategy chain of `export_sublayers_dwg` (after the RhinoCommon
write fails) and the per-layout print chain of `_export_pdf_per_layout`
both try their candidate commands strictly in declared list order and stop
at the first whose postcondition probe confirms: when the n-th command
succeeds, the outcome names that command, the commands issued are exactly
`0 .. n`, and no later command is ever invoked. -/
theorem c6_first_success_short_circuits (env : ExportEnv) (name : String)
    (fs : Bool) (n : Nat) (seqOk : Nat → Bool)
    (hname : strStartsWith name "DRAWING_" = true)
    (hobj : env.hasObjects = true)
    (hwf : (!env.writeFileRaises && env.writeFileStable) = false)
    (hn : n < 4)
    (hbefore : ∀ m, m < n → env.cmdStable m = false)
    (hsucc : env.cmdStable n = true)
    (hseqBefore : ∀ m, m < n → seqOk m = false)
    (hseqSucc : seqOk n = true) :
    (export_sublayers_dwg name true env fs).result = ExportResult.wroteCmd n ∧
    (export_sublayers_dwg name true env fs).cmdsInvoked = List.range (n + 1) ∧
    (∀ m, n < m → m ∉ (export_sublayers_dwg name true env fs).cmdsInvoked) ∧
    (tryCmds seqOk try_sequences_idx).1 = some n ∧
    (tryCmds seqOk try_sequences_idx).2 = List.range (n + 1) := by
  have h1 := tryCmds_first_success env.cmdStable n hn hbefore hsucc
  have h2 := tryCmds_first_success seqOk n hn hseqBefore hseqSucc
  have he : export_sublayers_dwg name true env fs =
      { result := .wroteCmd n, writeFileAttempted := true,
        cmdsInvoked := List.range (n + 1), fsAfter := true } := by
    simp only [export_sublayers_dwg, export_cmds_idx, hname, hobj, hwf]
    rw [h1]
    simp
  refine ⟨by rw [he], by rw [he], ?_, by simp [try_sequences_idx, h2],
    by simp [try_sequences_idx, h2]⟩
  intro m hm
  rw [he]
  simp only [List.mem_range]
  omega

/-- Witness for C6 at a concrete input: only the second command (index 1)
succeeds, so commands 0 and 1 run and commands 2 and 3 never do. -/
theorem c6_first_success_short_circuits_witness :
    (export_sublayers_dwg "DRAWING_DECK" true envSecondCmdOk false).result =
      ExportResult.wroteCmd 1 ∧
    (export_sublayers_dwg "DRAWING_DECK" true envSecondCmdOk false).cmdsInvoked =
      List.range 2 ∧
    (∀ m, 1 < m →
      m ∉ (export_sublayers_dwg "DRAWING_DECK" true envSecondCmdOk false).cmdsInvoked) ∧
    (tryCmds (fun i => i == 1) try_sequences_idx).1 = some 1 ∧
    (tryCmds (fun i => i == 1) try_sequences_idx).2 = List.range 2 :=
  c6_first_success_short_circuits envSecondCmdOk "DRAWING_DECK" false 1
    (fun i => i == 1) (by decide) rfl rfl (by norm_num)
    (by
      intro m hm
      have hm0 : m = 0 := by omega
      rw [hm0]
      rfl)
    rfl
    (by
      intro m hm
      have hm0 : m = 0 := by omega
      rw [hm0]
      rfl)
    rfl

/-! ## C8: the skip decision is re-probed, never cached -/

/-- Helper: when the idempotency guard does not fire, `export_deck` never
reports the skip outcome: the result comes from the generate/export path. -/
theorem deck_no_skip_of_guard_false (sectionName baseDir : String)
    (allow : Bool) (env : DeckEnv) (fs : Bool) (hg : (!allow && fs) = false) :
    ∀ p, (export_deck sectionName baseDir allow env fs).result ≠
      DeckResult.skippedPreexisting p := by
  intro p
  simp only [export_deck, hg, Bool.false_eq_true, if_false]
  cases hres : (generate_drawing sectionName env.gen).result with
  | raisedErr msg => simp [hres]
  | ok dl temp =>
    simp only [hres]
    cases hexp : (export_sublayers_dwg dl allow env.exp fs).result <;> simp [hexp]

/-- C8: the skip decision of a run of `export_deck` is exactly the probe of
the external file state at that run's own start (`allow_overwrite = False`
and the file present with nonzero size), for every host environment; and a
second run is a function of the file state it starts from alone — two first
runs that leave the same file state make any second run behave
identically, whatever their arguments, environments or results were.
There is no in-memory cache to consult. -/
theorem c8_skip_reprobed_not_cached (sectionName baseDir : String)
    (a1 a1b a2 : Bool) (env1 env1b env2 : DeckEnv) (fs0 fs0b fs1 : Bool) :
    ((∃ p, (export_deck sectionName baseDir a2 env2 fs1).result =
        DeckResult.skippedPreexisting p) ↔ (a2 = false ∧ fs1 = true)) ∧
    ((export_deck sectionName baseDir a1 env1 fs0).fsAfter =
        (export_deck sectionName baseDir a1b env1b fs0b).fsAfter →
      export_deck sectionName baseDir a2 env2
          ((export_deck sectionName baseDir a1 env1 fs0).fsAfter) =
        export_deck sectionName baseDir a2 env2
          ((export_deck sectionName baseDir a1b env1b fs0b).fsAfter)) := by
  constructor
  · by_cases hg : (!a2 && fs1) = true
    · have ha2 : a2 = false ∧ fs1 = true := by
        constructor
        · rcases a2 with _ | _
          · rfl
          · rw [Bool.not_true, Bool.false_and] at hg
            exact absurd hg (by simp)
        · rcases fs1 with _ | _
          · rw [Bool.and_false] at hg
            exact absurd hg (by simp)
          · rfl
      rw [ha2.1, ha2.2]
      simp [export_deck]
    · have hg2 : (!a2 && fs1) = false := by
        rcases hb : (!a2 && fs1) with _ | _
        · rfl
        · exact absurd hb hg
      constructor
      · rintro ⟨p, hp⟩
        exact absurd hp
          (deck_no_skip_of_guard_false sectionName baseDir a2 env2 fs1 hg2 p)
      · rintro ⟨ha2, hfs⟩
        rw [ha2, hfs] at hg2
        exact absurd hg2 (by simp)
  · intro h
    rw [h]

/-- Witness for C8 at concrete inputs: a first run that exports and a first
run that skips leave the same file state, so the second run is identical
after either; and the skip outcome of the second run matches the probe of
its own start state. -/
theorem c8_skip_reprobed_not_cached_witness :
    ((∃ p, (export_deck "DECK" "/out" false deckEnvOk true).result =
        DeckResult.skippedPreexisting p) ↔ (false = false ∧ true = true)) ∧
    ((export_deck "DECK" "/out" true deckEnvOk false).fsAfter =
        (export_deck "DECK" "/out" false deckEnvOk true).fsAfter →
      export_deck "DECK" "/out" false deckEnvOk
          ((export_deck "DECK" "/out" true deckEnvOk false).fsAfter) =
        export_deck "DECK" "/out" false deckEnvOk
          ((export_deck "DECK" "/out" false deckEnvOk true).fsAfter)) :=
  c8_skip_reprobed_not_cached "DECK" "/out" true false false deckEnvOk deckEnvOk
    deckEnvOk false true true

/-! ## C9: `_get_page_format_dimensions`
(src/assemble_layouts.py lines 87-109)

The millimetre dimensions in the source are floats with integral values
(148.0, 210.0, ...), modelled as natural numbers; the function performs no
arithmetic on them, it only looks them up and swaps the pair. -/

/-- The `formats` dictionary lookup `formats.get(...)`. -/
def formats_get (key : String) : Option (Nat × Nat) :=
  if key = "A5" then some (148, 210)
  else if key = "A4" then some (210, 297)
  else if key = "A3" then some (297, 420)
  else if key = "A2" then some (420, 594)
  else if key = "A1" then some (594, 841)
  else none

/-- `_get_page_format_dimensions`: look up
`format_name.upper().strip()`; when found and `landscape` is set, return
the swapped pair, otherwise the stored pair; `None` when not found. -/
def _get_page_format_dimensions (format_name : String) (landscape : Bool) :
    Option (Nat × Nat) :=
  match formats_get (strTrim (strToUpper format_name)) with
  | some d => if landscape then some (d.2, d.1) else some d
  | none => none

/-- C9: for every name that normalizes (uppercase, then strip) to one of
A5, A4, A3, A2, A1, the landscape result is exactly the swap of the
portrait result and swapping it again returns the portrait dimensions; for
every other name the result is `None` for both orientations. -/
theorem c9_landscape_swaps_portrait (s : String) :
    (strTrim (strToUpper s) ∈ ["A5", "A4", "A3", "A2", "A1"] →
      _get_page_format_dimensions s true =
        (_get_page_format_dimensions s false).map (fun d => (d.2, d.1)) ∧
      (_get_page_format_dimensions s true).map (fun d => (d.2, d.1)) =
        _get_page_format_dimensions s false) ∧
    (strTrim (strToUpper s) ∉ ["A5", "A4", "A3", "A2", "A1"] →
      _get_page_format_dimensions s true = none ∧
      _get_page_format_dimensions s false = none) := by
  constructor
  · intro hmem
    simp only [List.mem_cons, List.mem_singleton, List.not_mem_nil, or_false] at hmem
    rcases hmem with h | h | h | h | h <;>
      simp [_get_page_format_dimensions, formats_get, h]
  · intro hmem
    simp only [List.mem_cons, List.mem_singleton, List.not_mem_nil, or_false,
      not_or] at hmem
    obtain ⟨h5, h4, h3, h2, h1⟩ := hmem
    simp [_get_page_format_dimensions, formats_get, h5, h4, h3, h2, h1]

/-- Witness for C9 at concrete inputs: the recognized name `" a4"` (which
normalizes to A4) and the unrecognized name `"letter"`. -/
theorem c9_landscape_swaps_portrait_witness :
    (_get_page_format_dimensions " a4" true =
        (_get_page_format_dimensions " a4" false).map (fun d => (d.2, d.1)) ∧
      (_get_page_format_dimensions " a4" true).map (fun d => (d.2, d.1)) =
        _get_page_format_dimensions " a4" false) ∧
    (_get_page_format_dimensions "letter" true = none ∧
      _get_page_format_dimensions "letter" false = none) :=
  ⟨(c9_landscape_swaps_portrait " a4").1 (by decide),
    (c9_landscape_swaps_portrait "letter").2 (by decide)⟩

/-! ## C10: `_detail_rect_with_margin`
(src/assemble_layouts.py lines 430-440)

Page width/height and the margin are floats in the source; the computation
is subtraction and `max` only, modelled exactly over the rationals. -/

/-- `_detail_rect_with_margin`: left and bottom sit at the margin; right
and top are clamped to at least the margin. -/
def _detail_rect_with_margin (pageWidth pageHeight margin_mm : ℚ) :
    ℚ × ℚ × ℚ × ℚ :=
  (margin_mm, margin_mm, max margin_mm (pageWidth - margin_mm),
    max margin_mm (pageHeight - margin_mm))

/-- C10: for nonnegative page dimensions and a nonnegative margin the
returned rectangle `(l, b, r, t)` always satisfies `l ≤ r` and `b ≤ t`,
even when the page is smaller than twice the margin: the clamp keeps the
rectangle from inverting. -/
theorem c10_rect_never_inverted (w h m : ℚ)
    (hw : 0 ≤ w) (hh : 0 ≤ h) (hm : 0 ≤ m) :
    (_detail_rect_with_margin w h m).1 ≤ (_detail_rect_with_margin w h m).2.2.1 ∧
    (_detail_rect_with_margin w h m).2.1 ≤ (_detail_rect_with_margin w h m).2.2.2 :=
  ⟨le_max_left _ _, le_max_left _ _⟩

/-- Witness for C10 at a concrete input where the page (5 by 7 mm) is
smaller than twice the 10 mm margin. -/
theorem c10_rect_never_inverted_witness :
    (_detail_rect_with_margin 5 7 10).1 ≤ (_detail_rect_with_margin 5 7 10).2.2.1 ∧
    (_detail_rect_with_margin 5 7 10).2.1 ≤ (_detail_rect_with_margin 5 7 10).2.2.2 :=
  c10_rect_never_inverted 5 7 10 (by norm_num) (by norm_num) (by norm_num)
